import Mathlib

/-
Verification of `custom_components/iris_light/light.py`, a Home Assistant
bridge for a networked Iris light fixture. The Python code is shallowly
embedded: the cached entity state becomes an explicit record, the async
command methods become pure functions returning the updated cache together
with the ordered list of `(path, payload)` POST commands they issue, and the
float arithmetic of `homeassistant.util.scaling.scale_to_ranged_value` is
modelled exactly over `ℚ` (all quantities involved are small decimal
fractions, where IEEE doubles and exact rationals round identically; this
was cross-checked on the full relevant input domains).
-/

namespace IrisLight

/-- Cached device state: the `_brightness`, `_color_temp` and `_state`
fields of the `Light` entity. -/
structure LightState where
  brightness : ℤ
  color_temp : ℤ
  state : ℤ
  deriving DecidableEq

/-- Class-level defaults of `Light`: `_brightness = 10`, `_color_temp = 6`,
`_state = 2`. -/
def initLight : LightState := { brightness := 10, color_temp := 6, state := 2 }

/-- Mirrors `homeassistant.util.scaling.states_in_range`: the number of
states in a low/high range. -/
def states_in_range (r : ℚ × ℚ) : ℚ := r.2 - r.1 + 1

/-- Mirrors `homeassistant.util.scaling.scale_to_ranged_value`:
`(value - (src.low - 1)) * (states target / states source) + (tgt.low - 1)`. -/
def scale_to_ranged_value (src tgt : ℚ × ℚ) (value : ℚ) : ℚ :=
  (value - (src.1 - 1)) * (states_in_range tgt / states_in_range src) + (tgt.1 - 1)

/-- Python's builtin `round` on an exact rational: round half to even. -/
def pyRound (q : ℚ) : ℤ :=
  if q - ⌊q⌋ < 1/2 then ⌊q⌋
  else if 1/2 < q - ⌊q⌋ then ⌊q⌋ + 1
  else if ⌊q⌋ % 2 = 0 then ⌊q⌋ else ⌊q⌋ + 1

/-- The class constant `BRIGHTNESS_SCALE = (1, 10)`. -/
def BRIGHTNESS_SCALE : ℚ × ℚ := (1, 10)

/-- The class constant `COLOR_TEMP_SCALE = (1, 11)`. -/
def COLOR_TEMP_SCALE : ℚ × ℚ := (1, 11)

/-- Mirrors `Light._value_to_brightness`:
`min(255, max(1, round(scale_to_ranged_value(low_high_range, (5, 255), value))))`. -/
def value_to_brightness (low_high_range : ℚ × ℚ) (value : ℚ) : ℤ :=
  min 255 (max 1 (pyRound (scale_to_ranged_value low_high_range (5, 255) value)))

/-- Mirrors `Light._brightness_to_value`:
`scale_to_ranged_value((5, 255), low_high_range, brightness)`. -/
def brightness_to_value (low_high_range : ℚ × ℚ) (brightness : ℚ) : ℚ :=
  scale_to_ranged_value (5, 255) low_high_range brightness

/-- Mirrors the `Light.brightness` property: `1` when `_state == 1`,
otherwise `_value_to_brightness(BRIGHTNESS_SCALE, _brightness)`. -/
def brightness_prop (s : LightState) : ℤ :=
  if s.state = 1 then 1 else value_to_brightness BRIGHTNESS_SCALE (s.brightness : ℚ)

/-- Mirrors the `Light.color_temp` property:
`ceil(scale_to_ranged_value(COLOR_TEMP_SCALE, (155, 500), _color_temp))`. -/
def color_temp_prop (s : LightState) : ℤ :=
  ⌈scale_to_ranged_value COLOR_TEMP_SCALE (155, 500) (s.color_temp : ℚ)⌉

/-- Mirrors the `Light.is_on` property: `_state != 0`. -/
def is_on (s : LightState) : Bool := s.state != 0

/-- Mirrors `Light.async_turn_on`. Returns the updated cached state and the
ordered list of `(path suffix, JSON value payload)` POST commands issued:
the early-return `"night"` branch when the requested brightness is `1`,
otherwise `"on"` followed by the optional `"bright"` and `"color-temp"`
commands, each storing the ceiling-converted native value into the cache
before posting it. -/
def async_turn_on (s : LightState) (brightness color_temp : Option ℤ) :
    LightState × List (String × Option ℤ) :=
  if brightness = some 1 then
    (s, [(("night" : String), (none : Option ℤ))])
  else
    let first : List (String × Option ℤ) := [(("on" : String), (none : Option ℤ))]
    let step1 : LightState × List (String × Option ℤ) :=
      match brightness with
      | none => (s, first)
      | some b =>
        let nb : ℤ := ⌈brightness_to_value BRIGHTNESS_SCALE (b : ℚ)⌉
        ({ s with brightness := nb }, first ++ [(("bright" : String), some nb)])
    match color_temp with
    | none => step1
    | some ct =>
      let nct : ℤ := ⌈scale_to_ranged_value (155, 500) COLOR_TEMP_SCALE (ct : ℚ)⌉
      ({ step1.1 with color_temp := nct }, step1.2 ++ [(("color-temp" : String), some nct)])

/-- Mirrors `Light.async_turn_off`: posts `"off"` and leaves the cache
untouched. -/
def async_turn_off (s : LightState) : LightState × List (String × Option ℤ) :=
  (s, [(("off" : String), (none : Option ℤ))])

/-- JSON object of a state-fetch response; `none` models a missing key. -/
structure UpdateData where
  brightness : Option ℤ
  color_temp : Option ℤ
  state : Option ℤ

/-- The key whose lookup raised `KeyError` inside `_set_update`. -/
inductive FieldError where
  | brightness
  | color_temp
  | state
  deriving DecidableEq

/-- Mirrors `Light._set_update`: the three assignments run in source order,
and a missing key raises after the earlier assignments have already taken
effect. Returns the cache as the call leaves it, together with the raised
error, if any. -/
def set_update (s : LightState) (d : UpdateData) : LightState × Option FieldError :=
  match d.brightness with
  | none => (s, some FieldError.brightness)
  | some b =>
    let s1 : LightState := { s with brightness := b }
    match d.color_temp with
    | none => (s1, some FieldError.color_temp)
    | some ct =>
      let s2 : LightState := { s1 with color_temp := ct }
      match d.state with
      | none => (s2, some FieldError.state)
      | some st => ({ s2 with state := st }, none)

/-- Configuration stored by `Light.__init__`: the host string and the
derived base URL. -/
structure LightConfig where
  host : String
  url : String
  deriving DecidableEq

/-- Mirrors `Light.__init__`: the configured host is stored verbatim and the
base URL is built by string interpolation. The source performs no
validation of the host and has no error path. -/
def light_init (host : String) : LightConfig :=
  { host := host, url := "http://" ++ host ++ "/api/iris-lights/" }

/-- The empty device address. -/
def emptyHost : String := ""

/-- One host-driven operation on the bridge: `async_turn_on` with its
optional keyword arguments, `async_turn_off`, or a refresh whose device
response carries the three integer fields. -/
inductive Op where
  | turnOn (brightness color_temp : Option ℤ)
  | turnOff
  | refresh (brightness color_temp state : ℤ)

/-- Effect of one operation on the cached state. -/
def applyOp (s : LightState) : Op → LightState
  | Op.turnOn b ct => (async_turn_on s b ct).1
  | Op.turnOff => (async_turn_off s).1
  | Op.refresh b ct st =>
      (set_update s { brightness := some b, color_temp := some ct, state := some st }).1

/-- Cached state after a sequence of operations starting from `s`. -/
def runOps (s : LightState) (ops : List Op) : LightState := ops.foldl applyOp s

/-- The data-model invariant claimed by the spec: `brightnessRaw ∈ [1,10]`,
`colorTempRaw ∈ [1,11]`, `powerState ∈ \x7b0,1,2\x7d`. -/
def stateInvariant (s : LightState) : Prop :=
  (1 ≤ s.brightness ∧ s.brightness ≤ 10) ∧
  (1 ≤ s.color_temp ∧ s.color_temp ≤ 11) ∧
  (s.state = 0 ∨ s.state = 1 ∨ s.state = 2)

instance (s : LightState) : Decidable (stateInvariant s) := by
  unfold stateInvariant; infer_instance

/-- Host arguments and device responses under which the invariant is in
fact preserved: a requested brightness of `1` (the night branch) or one in
`[5,255]`, a requested color temperature in `[155,500]`, and refresh
responses whose fields already satisfy the invariant. -/
def goodOp : Op → Bool
  | Op.turnOn b ct =>
      (match b with
       | none => true
       | some x => x == 1 || (decide (5 ≤ x) && decide (x ≤ 255))) &&
      (match ct with
       | none => true
       | some y => decide (155 ≤ y) && decide (y ≤ 500))
  | Op.turnOff => true
  | Op.refresh b ct st =>
      decide (1 ≤ b) && decide (b ≤ 10) && decide (1 ≤ ct) && decide (ct ≤ 11) &&
      (st == 0 || st == 1 || st == 2)

/-- The result of Python `round` is within one half of its argument. -/
theorem pyRound_bounds (q : ℚ) : q - 1/2 ≤ (pyRound q : ℚ) ∧ (pyRound q : ℚ) ≤ q + 1/2 := by
  have h1 : (⌊q⌋ : ℚ) ≤ q := Int.floor_le q
  have h2 : q < ⌊q⌋ + 1 := Int.lt_floor_add_one q
  unfold pyRound
  split_ifs with ha hb hc
  · exact ⟨by linarith, by linarith⟩
  · push_cast
    exact ⟨by linarith, by linarith⟩
  · rw [not_lt] at ha hb
    exact ⟨by linarith, by linarith⟩
  · rw [not_lt] at ha hb
    push_cast
    exact ⟨by linarith, by linarith⟩

/-- Evaluation of `pyRound` when the fractional part is below one half. -/
theorem pyRound_eq_down (q : ℚ) (f : ℤ) (hle : (f : ℚ) ≤ q) (hlt : q - f < 1/2) :
    pyRound q = f := by
  have hf : ⌊q⌋ = f := Int.floor_eq_iff.mpr ⟨hle, by linarith⟩
  unfold pyRound
  rw [hf, if_pos hlt]

/-- Evaluation of `pyRound` when the fractional part is above one half. -/
theorem pyRound_eq_up (q : ℚ) (f r : ℤ) (hr : f + 1 = r) (hlt : 1/2 < q - f)
    (hup : q < f + 1) : pyRound q = r := by
  have hf : ⌊q⌋ = f := Int.floor_eq_iff.mpr ⟨by linarith, by linarith⟩
  unfold pyRound
  rw [hf, if_neg (by linarith), if_pos hlt, hr]

/-- Evaluation of `pyRound` at an exact half above an odd floor: rounds up. -/
theorem pyRound_eq_half_odd (q : ℚ) (f r : ℤ) (hr : f + 1 = r) (heq : q - f = 1/2)
    (hodd : f % 2 = 1) : pyRound q = r := by
  have hf : ⌊q⌋ = f := Int.floor_eq_iff.mpr ⟨by linarith, by linarith⟩
  unfold pyRound
  rw [hf, if_neg (by rw [heq]; exact lt_irrefl _), if_neg (by rw [heq]; exact lt_irrefl _),
    if_neg (by omega), hr]

/-- Evaluation of an integer ceiling of a rational. -/
theorem ceil_eval (q : ℚ) (z : ℤ) (h1 : (z : ℚ) - 1 < q) (h2 : q ≤ z) : ⌈q⌉ = z :=
  Int.ceil_eq_iff.mpr ⟨by linarith, h2⟩

/-- The native-to-host brightness map, written out: the scaled value is
`value * (251/10) + 4` before rounding and clamping. -/
theorem value_to_brightness_eval (v : ℚ) (r : ℤ) (h : pyRound (v * (251/10) + 4) = r)
    (h1 : 1 ≤ r) (h2 : r ≤ 255) : value_to_brightness BRIGHTNESS_SCALE v = r := by
  have hsc : scale_to_ranged_value BRIGHTNESS_SCALE (5, 255) v = v * (251/10) + 4 := by
    unfold scale_to_ranged_value states_in_range BRIGHTNESS_SCALE
    norm_num
  unfold value_to_brightness
  rw [hsc, h, max_eq_right h1, min_eq_right h2]

/-- Native brightness 1 reads back as host 29. -/
theorem vtb1 : value_to_brightness BRIGHTNESS_SCALE 1 = 29 :=
  value_to_brightness_eval 1 29 (pyRound_eq_down _ 29 (by norm_num) (by norm_num))
    (by norm_num) (by norm_num)

/-- Native brightness 2 reads back as host 54. -/
theorem vtb2 : value_to_brightness BRIGHTNESS_SCALE 2 = 54 :=
  value_to_brightness_eval 2 54 (pyRound_eq_down _ 54 (by norm_num) (by norm_num))
    (by norm_num) (by norm_num)

/-- Native brightness 3 reads back as host 79. -/
theorem vtb3 : value_to_brightness BRIGHTNESS_SCALE 3 = 79 :=
  value_to_brightness_eval 3 79 (pyRound_eq_down _ 79 (by norm_num) (by norm_num))
    (by norm_num) (by norm_num)

/-- Native brightness 4 reads back as host 104. -/
theorem vtb4 : value_to_brightness BRIGHTNESS_SCALE 4 = 104 :=
  value_to_brightness_eval 4 104 (pyRound_eq_down _ 104 (by norm_num) (by norm_num))
    (by norm_num) (by norm_num)

/-- Native brightness 5 scales to exactly 129.5, which Python rounds half
to even, giving host 130. -/
theorem vtb5 : value_to_brightness BRIGHTNESS_SCALE 5 = 130 :=
  value_to_brightness_eval 5 130 (pyRound_eq_half_odd _ 129 130 (by norm_num) (by norm_num)
    (by norm_num)) (by norm_num) (by norm_num)

/-- Native brightness 6 reads back as host 155. -/
theorem vtb6 : value_to_brightness BRIGHTNESS_SCALE 6 = 155 :=
  value_to_brightness_eval 6 155 (pyRound_eq_up _ 154 155 (by norm_num) (by norm_num)
    (by norm_num)) (by norm_num) (by norm_num)

/-- Native brightness 7 reads back as host 180. -/
theorem vtb7 : value_to_brightness BRIGHTNESS_SCALE 7 = 180 :=
  value_to_brightness_eval 7 180 (pyRound_eq_up _ 179 180 (by norm_num) (by norm_num)
    (by norm_num)) (by norm_num) (by norm_num)

/-- Native brightness 8 reads back as host 205. -/
theorem vtb8 : value_to_brightness BRIGHTNESS_SCALE 8 = 205 :=
  value_to_brightness_eval 8 205 (pyRound_eq_up _ 204 205 (by norm_num) (by norm_num)
    (by norm_num)) (by norm_num) (by norm_num)

/-- Native brightness 9 reads back as host 230. -/
theorem vtb9 : value_to_brightness BRIGHTNESS_SCALE 9 = 230 :=
  value_to_brightness_eval 9 230 (pyRound_eq_up _ 229 230 (by norm_num) (by norm_num)
    (by norm_num)) (by norm_num) (by norm_num)

/-- Native brightness 10 reads back as host 255 exactly. -/
theorem vtb10 : value_to_brightness BRIGHTNESS_SCALE 10 = 255 :=
  value_to_brightness_eval 10 255 (pyRound_eq_down _ 255 (by norm_num) (by norm_num))
    (by norm_num) (by norm_num)

/-- The host-to-native brightness map, written out:
`(brightness - 4) * (10/251)`. -/
theorem brightness_to_value_eval (b : ℚ) :
    brightness_to_value BRIGHTNESS_SCALE b = (b - 4) * (10/251) := by
  unfold brightness_to_value scale_to_ranged_value states_in_range BRIGHTNESS_SCALE
  norm_num

/-- The host-to-native color-temperature map, written out:
`(ct - 154) * (11/346)`. -/
theorem color_temp_to_value_eval (ct : ℚ) :
    scale_to_ranged_value (155, 500) COLOR_TEMP_SCALE ct = (ct - 154) * (11/346) := by
  unfold scale_to_ranged_value states_in_range COLOR_TEMP_SCALE
  norm_num

/-- A requested host brightness in `[5,255]` converts to a native value in
`[1,10]` on the write path. -/
theorem bright_arg_bounds (x : ℤ) (h1 : 5 ≤ x) (h2 : x ≤ 255) :
    1 ≤ ⌈brightness_to_value BRIGHTNESS_SCALE (x : ℚ)⌉ ∧
      ⌈brightness_to_value BRIGHTNESS_SCALE (x : ℚ)⌉ ≤ 10 := by
  rw [brightness_to_value_eval]
  have hx1 : (5 : ℚ) ≤ (x : ℚ) := by exact_mod_cast h1
  have hx2 : (x : ℚ) ≤ 255 := by exact_mod_cast h2
  constructor
  · have hpos : (0 : ℚ) < ((x : ℚ) - 4) * (10/251) := by
      have : (0 : ℚ) < (x : ℚ) - 4 := by linarith
      positivity
    exact Int.ceil_pos.mpr hpos
  · apply Int.ceil_le.mpr
    push_cast
    linarith

/-- A requested host color temperature in `[155,500]` converts to a native
value in `[1,11]` on the write path. -/
theorem ct_arg_bounds (y : ℤ) (h1 : 155 ≤ y) (h2 : y ≤ 500) :
    1 ≤ ⌈scale_to_ranged_value (155, 500) COLOR_TEMP_SCALE (y : ℚ)⌉ ∧
      ⌈scale_to_ranged_value (155, 500) COLOR_TEMP_SCALE (y : ℚ)⌉ ≤ 11 := by
  rw [color_temp_to_value_eval]
  have hy1 : (155 : ℚ) ≤ (y : ℚ) := by exact_mod_cast h1
  have hy2 : (y : ℚ) ≤ 500 := by exact_mod_cast h2
  constructor
  · have hpos : (0 : ℚ) < ((y : ℚ) - 154) * (11/346) := by
      have : (0 : ℚ) < (y : ℚ) - 154 := by linarith
      positivity
    exact Int.ceil_pos.mpr hpos
  · apply Int.ceil_le.mpr
    push_cast
    linarith

/-- A single well-behaved operation preserves the data-model invariant. -/
theorem applyOp_preserves (s : LightState) (op : Op) (hs : stateInvariant s)
    (hop : goodOp op = true) : stateInvariant (applyOp s op) := by
  cases op with
  | turnOff => exact hs
  | refresh b ct st =>
      simp only [goodOp, Bool.and_eq_true, Bool.or_eq_true, decide_eq_true_eq,
        beq_iff_eq] at hop
      obtain ⟨⟨⟨⟨h1, h2⟩, h3⟩, h4⟩, h5⟩ := hop
      exact ⟨⟨h1, h2⟩, ⟨h3, h4⟩, or_assoc.mp h5⟩
  | turnOn b ct =>
      simp only [goodOp, Bool.and_eq_true] at hop
      obtain ⟨hb, hct⟩ := hop
      cases b with
      | none =>
          cases ct with
          | none => exact hs
          | some y =>
              simp only [Bool.and_eq_true, decide_eq_true_eq] at hct
              obtain ⟨hc1, hc2⟩ := ct_arg_bounds y hct.1 hct.2
              exact ⟨hs.1, ⟨hc1, hc2⟩, hs.2.2⟩
      | some x =>
          simp only [Bool.or_eq_true, Bool.and_eq_true, decide_eq_true_eq,
            beq_iff_eq] at hb
          by_cases hx : x = 1
          · subst hx
            have : applyOp s (Op.turnOn (some 1) ct) = s := by
              simp [applyOp, async_turn_on]
            rw [this]
            exact hs
          · have hx55 : 5 ≤ x ∧ x ≤ 255 := hb.resolve_left hx
            obtain ⟨hb1, hb2⟩ := bright_arg_bounds x hx55.1 hx55.2
            have hcond : ¬(some x = some 1) := by
              simp only [Option.some.injEq]
              exact hx
            cases ct with
            | none =>
                show stateInvariant (async_turn_on s (some x) none).1
                rw [async_turn_on, if_neg hcond]
                exact ⟨⟨hb1, hb2⟩, hs.2.1, hs.2.2⟩
            | some y =>
                simp only [Bool.and_eq_true, decide_eq_true_eq] at hct
                obtain ⟨hc1, hc2⟩ := ct_arg_bounds y hct.1 hct.2
                show stateInvariant (async_turn_on s (some x) (some y)).1
                rw [async_turn_on, if_neg hcond]
                exact ⟨⟨hb1, hb2⟩, ⟨hc1, hc2⟩, hs.2.2⟩

/-- C1 (counterexample): a refresh response missing only the `"state"` field
raises (`KeyError` on `"state"`), yet the cache is NOT unchanged: starting
from the default cache `(10, 6, 2)`, the response `\x7b"brightness": 7,
"color_temp": 3\x7d` leaves the cache at `(7, 3, 2)` — the brightness and
color-temperature fields were already overwritten when the error was
raised. -/
theorem set_update_missing_state_mutates_cache :
    set_update initLight { brightness := some 7, color_temp := some 3, state := none } =
      ({ brightness := 7, color_temp := 3, state := 2 }, some FieldError.state) ∧
    ({ brightness := 7, color_temp := 3, state := 2 } : LightState) ≠ initLight := by
  exact ⟨rfl, by decide⟩

/-- C1 (amended): `_set_update` assigns `brightness`, `color_temp`, `state`
in source order and raises at the first missing key, so the error path is a
partial update, not an atomic one: with `"state"` missing (the other two
present), it raises and the cache keeps the response's brightness and
color-temperature with the previous power state; only when `"brightness"`
(the first field read) is missing is the cache fully unchanged. -/
theorem set_update_sequential_assignment :
    (∀ (s : LightState) (b ct : ℤ),
      set_update s { brightness := some b, color_temp := some ct, state := none } =
        ({ brightness := b, color_temp := ct, state := s.state }, some FieldError.state)) ∧
    (∀ (s : LightState) (oct ost : Option ℤ),
      set_update s { brightness := none, color_temp := oct, state := ost } =
        (s, some FieldError.brightness)) :=
  ⟨fun _ _ _ => rfl, fun _ _ _ => rfl⟩

/-- C3: a `turn_on` call whose options request brightness 1 posts exactly
the single command `"night"` with a null payload — no `"on"`, `"bright"`
or `"color-temp"` — and returns with the cached state untouched, whatever
color temperature was also requested. -/
theorem turn_on_brightness_one_night_only (s : LightState) (ct : Option ℤ) :
    async_turn_on s (some 1) ct = (s, [(("night" : String), (none : Option ℤ))]) := by
  rw [async_turn_on, if_pos rfl]

/-- C4: whenever the cached power state is 1 (night mode), the `brightness`
property returns exactly 1, for every cached raw brightness, bypassing the
proportional conversion. -/
theorem brightness_prop_night_mode (braw ctraw : ℤ) :
    brightness_prop { brightness := braw, color_temp := ctraw, state := 1 } = 1 := by
  simp [brightness_prop]

/-- C6 (counterexample): with power state 2 the claim's second half fails:
cached native brightness 1 reads back as host 29 (the scaling maps native 1
to `1 * 251/10 + 4 = 29.1`, rounded to 29), not as the claimed clamped
minimum 5; the clamp never engages for in-domain input. -/
theorem brightness_native_min_not_five :
    brightness_prop { brightness := 1, color_temp := 6, state := 2 } = 29 ∧
    ¬(brightness_prop { brightness := 10, color_temp := 6, state := 2 } = 255 ∧
      brightness_prop { brightness := 1, color_temp := 6, state := 2 } = 5) := by
  have h1 : brightness_prop { brightness := 1, color_temp := 6, state := 2 } = 29 := by
    rw [brightness_prop, if_neg (by decide)]
    show value_to_brightness BRIGHTNESS_SCALE ((1 : ℤ) : ℚ) = 29
    rw [show ((1 : ℤ) : ℚ) = 1 by norm_num, vtb1]
  refine ⟨h1, fun h => ?_⟩
  rw [h1] at h
  exact absurd h.2 (by norm_num)

/-- C6 (amended): with power state 2, cached native brightness 10 (the
native maximum) reads back as host 255 exactly, and cached native
brightness 1 (the native minimum) reads back as host 29 — `round(29.1)` —
not 5: the `max 1` clamp is never the binding bound for in-domain values. -/
theorem brightness_native_extremes :
    brightness_prop { brightness := 10, color_temp := 6, state := 2 } = 255 ∧
    brightness_prop { brightness := 1, color_temp := 6, state := 2 } = 29 := by
  constructor
  · rw [brightness_prop, if_neg (by decide)]
    show value_to_brightness BRIGHTNESS_SCALE ((10 : ℤ) : ℚ) = 255
    rw [show ((10 : ℤ) : ℚ) = 10 by norm_num, vtb10]
  · rw [brightness_prop, if_neg (by decide)]
    show value_to_brightness BRIGHTNESS_SCALE ((1 : ℤ) : ℚ) = 29
    rw [show ((1 : ℤ) : ℚ) = 1 by norm_num, vtb1]

/-- C9 (counterexample): constructing the entity with an empty device
address raises nothing: `__init__` completes normally, stores the empty
host verbatim and derives the degenerate base URL. -/
theorem light_init_empty_host_no_error :
    light_init emptyHost = { host := emptyHost, url := "http:///api/iris-lights/" } := by
  rfl

/-- C9 (amended): construction performs no validation of the device address
and has no error path: every host string — empty or otherwise — is accepted,
stored verbatim, and interpolated into the base URL; configuration problems
surface only later, when a request is attempted. -/
theorem light_init_no_validation (host : String) :
    (light_init host).host = host ∧
    (light_init host).url = "http://" ++ host ++ "/api/iris-lights/" :=
  ⟨rfl, rfl⟩

/-- C10: for every cached raw brightness — including values outside the
native domain `[1,10]`, which a fetch response can store — and every power
state, the `brightness` property returns a value within `[1,255]`: the
night-mode branch returns 1 and the conversion branch is clamped by
`min 255 (max 1 _)` unconditionally. -/
theorem brightness_prop_always_in_range (braw ctraw st : ℤ) :
    1 ≤ brightness_prop { brightness := braw, color_temp := ctraw, state := st } ∧
    brightness_prop { brightness := braw, color_temp := ctraw, state := st } ≤ 255 := by
  rw [brightness_prop]
  split_ifs
  · exact ⟨le_refl 1, by norm_num⟩
  · rw [value_to_brightness]
    exact ⟨le_min (by norm_num) (le_max_left 1 _), min_le_left _ _⟩

/-- C2 (counterexample): the invariant does not hold for every reachable
state: a single refresh whose device response reports brightness 99 (the
code stores fetched fields unvalidated) leaves the cached raw brightness at
99, outside `[1,10]`. -/
theorem invariant_broken_by_unvalidated_refresh :
    (runOps initLight [Op.refresh 99 6 2]).brightness = 99 ∧
    ¬stateInvariant (runOps initLight [Op.refresh 99 6 2]) := by
  exact ⟨rfl, by decide⟩

/-- C2 (amended): the invariant does hold for every state reachable under
well-behaved inputs: `turn_on` calls whose requested brightness is 1 or in
`[5,255]` and whose requested color temperature is in `[155,500]`,
`turn_off` calls, and refreshes whose responses report fields already inside
the native domains with state in `\x7b0,1,2\x7d`. (A `turn_on` brightness of
2–4 stores native 0, and a refresh stores whatever the device reported, so
the restriction is necessary.) -/
theorem invariant_reachable_good_ops (ops : List Op)
    (h : ∀ op ∈ ops, goodOp op = true) :
    stateInvariant (runOps initLight ops) := by
  have hstep : ∀ (l : List Op) (s : LightState), stateInvariant s →
      (∀ op ∈ l, goodOp op = true) → stateInvariant (runOps s l) := by
    intro l
    induction l with
    | nil => exact fun s hs _ => hs
    | cons op rest ih =>
        intro s hs hall
        have h1 : goodOp op = true := hall op (List.mem_cons_self op rest)
        have h2 : ∀ o ∈ rest, goodOp o = true :=
          fun o ho => hall o (List.mem_cons_of_mem op ho)
        exact ih (applyOp s op) (applyOp_preserves s op hs h1) h2
  exact hstep ops initLight (by decide) h

/-- C2 (witness): a concrete well-behaved run — turn on with brightness 128
and color temperature 300, turn off, then refresh with response
`(1, 11, 0)` — ends in a state satisfying the invariant. -/
theorem invariant_reachable_good_ops_witness :
    stateInvariant (runOps initLight
      [Op.turnOn (some 128) (some 300), Op.turnOff, Op.refresh 1 11 0]) :=
  invariant_reachable_good_ops
    [Op.turnOn (some 128) (some 300), Op.turnOff, Op.refresh 1 11 0] (by decide)

/-- C5: on the native domain `[1,10]`, the native-to-host brightness
conversion `_value_to_brightness(BRIGHTNESS_SCALE, ·)` lands in `[1,255]`
and is monotonically non-decreasing. -/
theorem value_to_brightness_clamped_monotone (v w : ℤ) (hv1 : 1 ≤ v) (hv2 : v ≤ 10)
    (hw1 : 1 ≤ w) (hw2 : w ≤ v) :
    (1 ≤ value_to_brightness BRIGHTNESS_SCALE (v : ℚ) ∧
      value_to_brightness BRIGHTNESS_SCALE (v : ℚ) ≤ 255) ∧
    value_to_brightness BRIGHTNESS_SCALE (w : ℚ) ≤
      value_to_brightness BRIGHTNESS_SCALE (v : ℚ) := by
  have hw10 : w ≤ 10 := le_trans hw2 hv2
  interval_cases v <;> interval_cases w <;>
    norm_num [vtb1, vtb2, vtb3, vtb4, vtb5, vtb6, vtb7, vtb8, vtb9, vtb10]

/-- C5 (witness): instantiated at native values 10 and 3: the host image of
10 lies in `[1,255]` and dominates the host image of 3. -/
theorem value_to_brightness_clamped_monotone_witness :
    (1 ≤ value_to_brightness BRIGHTNESS_SCALE ((10 : ℤ) : ℚ) ∧
      value_to_brightness BRIGHTNESS_SCALE ((10 : ℤ) : ℚ) ≤ 255) ∧
    value_to_brightness BRIGHTNESS_SCALE ((3 : ℤ) : ℚ) ≤
      value_to_brightness BRIGHTNESS_SCALE ((10 : ℤ) : ℚ) :=
  value_to_brightness_clamped_monotone 10 3 (by norm_num) (by norm_num)
    (by norm_num) (by norm_num)

/-- C8: `turn_on` with brightness 128 and color temperature 300 (from the
default cache, power state 2) posts, in order, `"on"` with null payload,
`"bright"` with the ceiling of 128 mapped from the `(5,255)` host range
into `(1,10)` (namely 5), and `"color-temp"` with the ceiling of 300 mapped
from `(155,500)` into `(1,11)` (namely 5), and caches those two native
values. -/
theorem turn_on_full_options :
    async_turn_on initLight (some 128) (some 300) =
      ({ brightness := 5, color_temp := 5, state := 2 },
        [(("on" : String), (none : Option ℤ)), (("bright" : String), some 5),
          (("color-temp" : String), some 5)]) ∧
    ⌈brightness_to_value BRIGHTNESS_SCALE (128 : ℚ)⌉ = 5 ∧
    ⌈scale_to_ranged_value (155, 500) COLOR_TEMP_SCALE (300 : ℚ)⌉ = 5 := by
  have hb : ⌈brightness_to_value BRIGHTNESS_SCALE (128 : ℚ)⌉ = 5 := by
    rw [brightness_to_value_eval,
      show ((128 : ℚ) - 4) * (10/251) = 1240/251 by norm_num]
    exact ceil_eval _ 5 (by norm_num) (by norm_num)
  have hc : ⌈scale_to_ranged_value (155, 500) COLOR_TEMP_SCALE (300 : ℚ)⌉ = 5 := by
    rw [color_temp_to_value_eval,
      show ((300 : ℚ) - 154) * (11/346) = 803/173 by norm_num]
    exact ceil_eval _ 5 (by norm_num) (by norm_num)
  refine ⟨?_, hb, hc⟩
  norm_num [async_turn_on, initLight, hb, hc]

/-- C7: round trip on the write-then-read path: converting a host
brightness in `[1,255]` to a native value with ceiling rounding, then back
with the clamped round-to-nearest read conversion, lands within one native
quantization step — `251/10` host units — of the original host value. -/
theorem brightness_round_trip (b : ℤ) (h1 : 1 ≤ b) (h2 : b ≤ 255) :
    |value_to_brightness BRIGHTNESS_SCALE
        ((⌈brightness_to_value BRIGHTNESS_SCALE (b : ℚ)⌉ : ℤ) : ℚ) - b| * 10 ≤ 251 := by
  set n : ℤ := ⌈brightness_to_value BRIGHTNESS_SCALE (b : ℚ)⌉ with hn
  have hb1 : (1 : ℚ) ≤ (b : ℚ) := by exact_mod_cast h1
  have hb2 : (b : ℚ) ≤ 255 := by exact_mod_cast h2
  have hx : brightness_to_value BRIGHTNESS_SCALE (b : ℚ) = ((b : ℚ) - 4) * (10/251) :=
    brightness_to_value_eval _
  have hceil1 : ((b : ℚ) - 4) * (10/251) ≤ (n : ℚ) := by
    rw [hn, ← hx]
    exact Int.le_ceil _
  have hceil2 : (n : ℚ) < ((b : ℚ) - 4) * (10/251) + 1 := by
    rw [hn, ← hx]
    exact Int.ceil_lt_add_one _
  have hn10 : (n : ℚ) ≤ 10 := by
    have h10 : n ≤ 10 := by
      rw [hn]
      apply Int.ceil_le.mpr
      rw [hx]
      push_cast
      linarith
    exact_mod_cast h10
  have hq : scale_to_ranged_value BRIGHTNESS_SCALE (5, 255) ((n : ℤ) : ℚ) =
      (n : ℚ) * (251/10) + 4 := by
    unfold scale_to_ranged_value states_in_range BRIGHTNESS_SCALE
    norm_num
  set r : ℤ := pyRound ((n : ℚ) * (251/10) + 4) with hr
  obtain ⟨hrlo, hrhi⟩ := pyRound_bounds ((n : ℚ) * (251/10) + 4)
  rw [← hr] at hrlo hrhi
  have hbq : (b : ℚ) ≤ (n : ℚ) * (251/10) + 4 := by linarith
  have hqb : (n : ℚ) * (251/10) + 4 < (b : ℚ) + 251/10 := by linarith
  have hrb : b ≤ r := by
    have hcast : (b : ℚ) < (r : ℚ) + 1 := by linarith
    have hlt : b < r + 1 := by exact_mod_cast hcast
    omega
  have hru : r ≤ b + 25 := by
    have hcast : (r : ℚ) < (b : ℚ) + 26 := by linarith
    have hlt : r < b + 26 := by exact_mod_cast hcast
    omega
  have hr255 : r ≤ 255 := by
    have hcast : (r : ℚ) < 256 := by linarith
    have hlt : r < 256 := by exact_mod_cast hcast
    omega
  have hr1 : (1 : ℤ) ≤ r := by omega
  rw [value_to_brightness, hq, ← hr, max_eq_right hr1, min_eq_right hr255,
    abs_of_nonneg (by omega : (0 : ℤ) ≤ r - b)]
  omega

/-- C7 (witness): instantiated at host brightness 128: the write-then-read
round trip returns within `251/10` host units of 128. -/
theorem brightness_round_trip_witness :
    |value_to_brightness BRIGHTNESS_SCALE
        ((⌈brightness_to_value BRIGHTNESS_SCALE ((128 : ℤ) : ℚ)⌉ : ℤ) : ℚ) - 128| * 10 ≤ 251 :=
  brightness_round_trip 128 (by norm_num) (by norm_num)

end IrisLight
